import Mathlib

/-!
Shallow embedding of the purchase-planning engine in
`src/purchase_forecaster.py` (class `PurchasePlanForecaster`), together with
proofs of the specified properties.

Modelling conventions:
- Python floats are modelled by exact numbers: `ℚ` where the computation is
  rational, `ℝ` where a square root enters (`math.sqrt` in `_hist_daily_stats`
  and in the order-up-to formula).
- Calendar months ("YYYY-MM" strings manipulated with `strptime`,
  `relativedelta(months=i)` and `strftime`) are modelled by `ℕ`, the absolute
  month number (year*12+month); adding one calendar month is `+ 1`.  The
  string encoding is strictly monotone in this number, so order and
  consecutiveness transfer.
- Dates "YYYY-MM-DD" are modelled as a pair (absolute month, day of month),
  so the f-string `f"{month}-01"` becomes `(month, 1)`.
- A Python value that may be `None`, `NaN`, or a number (the optional item
  parameters fed to `_num_or_none`) is modelled by the inductive `OptFloat`.
- Python dicts (`item_params`, `current_inventory`, `sales_forecasts_n12`)
  are modelled as association lists in insertion order; `dict.get` is
  `List.lookup` and iteration is list traversal.
- Python `sorted` is a stable sort; `List.insertionSort` is likewise stable,
  so both produce the same ordering by month.
- Python `//` is floor division, modelled by `Int.fdiv`.
- Python `round` is round-half-to-even, modelled by `pyRound` below;
  `math.ceil` on a float is `Int.ceil`; `int(x)` on a nonnegative float is
  `Int.floor`.
-/

namespace PurchasePlanner

/-- Python value that is either None, NaN, or a finite number: the input
domain of `_num_or_none` for the optional numeric item parameters. -/
inductive OptFloat where
  | absent : OptFloat
  | nan : OptFloat
  | num : ℚ → OptFloat
deriving DecidableEq

/-- Embeds dataclass `HistoricalSalesData`. -/
structure HistoricalSalesData where
  month : ℕ
  item_id : String
  item_name : String
  actual_sales_qty : ℤ
  stock_available : Bool
  lost_sales_qty : ℤ
  unit_price : ℚ
  category : String
deriving DecidableEq

/-- Embeds dataclass `MonthlySalesForecast`. -/
structure MonthlySalesForecast where
  month : ℕ
  forecasted_sales_qty : ℤ
  forecast_source : String
  confidence_score : ℚ
deriving DecidableEq

/-- Embeds dataclass `ItemParameters`. -/
structure ItemParameters where
  item_id : String
  item_name : String
  supplier : String
  order_lead_time_days : ℤ
  minimum_order_qty : ℤ
  order_multiple : ℤ
  unit_cost : ℚ
  shelf_life_days : OptFloat
  safety_stock_days : ℤ
  max_stock_cover_months : OptFloat
  category : Option String
  segment : Option String
deriving DecidableEq

/-- Embeds dataclass `CurrentInventory`. -/
structure CurrentInventory where
  item_id : String
  current_stock_qty : ℤ
  in_transit_qty : ℤ
  in_transit_arrival_date : Option String
  committed_qty : ℤ
deriving DecidableEq

/-- Embeds the output dataclass `PurchaseForecast`.  Dates are (absolute
month, day) pairs; the diagnostic `notes` list of formatted strings carries
no numeric content beyond Z, L, R and is not modelled. -/
structure PurchaseForecast where
  forecast_month : ℕ
  item_id : String
  item_name : String
  category : Option String
  segment : Option String
  adjusted_demand : ℤ
  optimized_order_qty : ℤ
  effective_unit_cost : ℚ
  total_order_cost : ℚ
  opening_inventory_units : ℤ
  planned_intake_units : ℤ
  actual_intake_units : ℤ
  forecasted_sales_units : ℤ
  actual_sales_units : ℤ
  closing_inventory_units : ℤ
  future_cover_months : ℚ
  order_by_date : ℕ × ℕ
  expected_delivery_date : ℕ × ℕ
  supplier_name : String

/-- Embeds `_num_or_none`: None and NaN (and unparseable values, which the
`OptFloat` domain folds into `absent`) become `none`; finite numbers pass
through. -/
def num_or_none : OptFloat → Option ℚ
  | OptFloat.absent => none
  | OptFloat.nan => none
  | OptFloat.num v => some v

/-- Embeds the module-level dict lookup `_Z_BY_SERVICE.get(service_level, 1.645)`
with `_Z_BY_SERVICE = {0.90: 1.282, 0.95: 1.645, 0.98: 2.054, 0.99: 2.326}`. -/
def zOfService (service_level : ℚ) : ℚ :=
  if service_level = 90/100 then 1282/1000
  else if service_level = 95/100 then 1645/1000
  else if service_level = 98/100 then 2054/1000
  else if service_level = 99/100 then 2326/1000
  else 1645/1000

/-- Embeds Python `round` on an exact value: round half to even. -/
def pyRound (q : ℚ) : ℤ :=
  if q - ⌊q⌋ = 1/2 then (if 2 ∣ ⌊q⌋ then ⌊q⌋ else ⌊q⌋ + 1) else ⌊q + 1/2⌋

/-- Embeds the engine state after the four loader calls: `sales_history` is
a list, the other three collections are insertion-ordered dicts modelled as
association lists with unique keys. -/
structure PurchasePlanForecaster where
  sales_history : List HistoricalSalesData
  item_params : List (String × ItemParameters)
  current_inventory : List (String × CurrentInventory)
  sales_forecasts_n12 : List (String × List MonthlySalesForecast)

namespace PurchasePlanForecaster

/-- The records of `sales_history` for one item, in list order
(`[r for r in self.sales_history if r.item_id == item_id]`). -/
def histRows (F : PurchasePlanForecaster) (item_id : String) :
    List HistoricalSalesData :=
  F.sales_history.filter (fun r => r.item_id == item_id)

/-- Embeds `sorted(rows, key=lambda r: r.month)[-12:]` from
`_hist_daily_stats`: stable sort by month ascending, then the trailing at
most 12 records. -/
def histTrailing (F : PurchasePlanForecaster) (item_id : String) :
    List HistoricalSalesData :=
  let rows := List.insertionSort (fun a b => a.month ≤ b.month) (F.histRows item_id)
  rows.drop (rows.length - 12)

/-- Embeds `monthly = [max(0, r.actual_sales_qty) for r in rows]`. -/
def histMonthly (F : PurchasePlanForecaster) (item_id : String) : List ℤ :=
  (F.histTrailing item_id).map (fun r => max 0 r.actual_sales_qty)

/-- Embeds `mean_m = sum(monthly) / len(monthly) if monthly else 1.0`. -/
def histMeanM (F : PurchasePlanForecaster) (item_id : String) : ℚ :=
  let monthly := F.histMonthly item_id
  if monthly = [] then 1 else ((monthly.sum : ℚ) / monthly.length)

/-- Embeds `var = sum((x - mean_m) ** 2 for x in monthly) / (len(monthly) - 1)`
(only used when `len(monthly) > 1`; defined as 0 otherwise). -/
def histVarM (F : PurchasePlanForecaster) (item_id : String) : ℚ :=
  let monthly := F.histMonthly item_id
  if 1 < monthly.length then
    (monthly.map (fun x : ℤ => ((x : ℚ) - F.histMeanM item_id) ^ 2)).sum /
      ((monthly.length : ℚ) - 1)
  else 0

/-- Embeds `std_m`: `math.sqrt(var)` when more than one month of history,
else `0.25 * mean_m`. -/
noncomputable def histStdM (F : PurchasePlanForecaster) (item_id : String) : ℝ :=
  if 1 < (F.histMonthly item_id).length then Real.sqrt (F.histVarM item_id)
  else 0.25 * (F.histMeanM item_id : ℝ)

/-- Embeds the first component of `_hist_daily_stats`:
`mean_d = max(mean_m / 30.0, 0.1)`, with the early return of 1.0 when the
item has no history rows at all. -/
def hist_mean_d (F : PurchasePlanForecaster) (item_id : String) : ℚ :=
  if F.histRows item_id = [] then 1 else max (F.histMeanM item_id / 30) (1/10)

/-- Embeds the second component of `_hist_daily_stats`:
`std_d = max(std_m / 30.0, 0.05 * mean_d)`, with the early return of 0.3
when the item has no history rows at all. -/
noncomputable def hist_std_d (F : PurchasePlanForecaster) (item_id : String) : ℝ :=
  if F.histRows item_id = [] then 0.3
  else max (F.histStdM item_id / 30) (0.05 * (F.hist_mean_d item_id : ℝ))

/-- Embeds `_hist_daily_stats` itself, the pair `(mean_d, std_d)`. -/
noncomputable def hist_daily_stats (F : PurchasePlanForecaster) (item_id : String) :
    ℚ × ℝ :=
  (F.hist_mean_d item_id, F.hist_std_d item_id)

/-- Embeds `max(exact or pool, key=lambda f: f.confidence_score)`: Python
`max` scans left to right and keeps the first element of maximal key. -/
def maxByConfidence (pool : List MonthlySalesForecast) :
    Option MonthlySalesForecast :=
  pool.foldl
    (fun acc f =>
      match acc with
      | none => some f
      | some g => if g.confidence_score < f.confidence_score then some f else some g)
    none

/-- Embeds `_pick_monthly_forecast`. -/
def pick_monthly_forecast (F : PurchasePlanForecaster) (item_id : String)
    (month : ℕ) : Option MonthlySalesForecast :=
  let pool := (F.sales_forecasts_n12.lookup item_id).getD []
  if pool = [] then none
  else
    let exact := pool.filter (fun f => f.month == month)
    maxByConfidence (if exact = [] then pool else exact)

end PurchasePlanForecaster

/-- Embeds `_cap_by_cover_and_shelf`.  The `monthly_demand` argument is a
computed finite float in the source, so `_num_or_none(monthly_demand)` is
`some monthly_demand` and only the `md <= 0` test remains; the two optional
item parameters go through `num_or_none`.  `int(...)` of the positive cap
products is `Int.floor`. -/
def cap_by_cover_and_shelf (raw_qty : ℤ) (p : ItemParameters)
    (monthly_demand : ℚ) : ℤ :=
  let qty := max 0 raw_qty
  let md := monthly_demand
  if md ≤ 0 then qty
  else
    let caps : List ℤ :=
      (match num_or_none p.max_stock_cover_months with
       | some c => if 0 < c then [⌊c * md⌋] else []
       | none => []) ++
      (match num_or_none p.shelf_life_days with
       | some sd => if 0 < sd then [⌊sd / 30 * md⌋] else []
       | none => [])
    match caps.max? with
    | none => qty
    | some m => max 0 (min qty m)

/-- Embeds `_round_to_moq_multiple`.  `multiple or 1` maps 0 to 1 and is the
identity elsewhere; `moq or 0` is the identity on integers; `//` is floor
division. -/
def round_to_moq_multiple (qty moq multiple : ℤ) : ℤ :=
  if qty ≤ 0 then 0
  else
    let multiple := max 1 (if multiple = 0 then 1 else multiple)
    let moq := max 0 moq
    let rounded := (Int.fdiv (qty + multiple - 1) multiple) * multiple
    max rounded moq

namespace PurchasePlanForecaster

/-- Embeds the initialisation of the per-item loop in `generate_purchase_plan`:
`on_hand`, `in_transit` (subject to `include_in_transit` and presence in the
`current_inventory` dict) and `available = max(0, on_hand + in_transit)`. -/
def available_stock (F : PurchasePlanForecaster) (include_in_transit : Bool)
    (item_id : String) : ℤ :=
  let inv := F.current_inventory.lookup item_id
  let on_hand := match inv with
    | some v => v.current_stock_qty
    | none => 0
  let in_transit := match inv with
    | some v => if include_in_transit then v.in_transit_qty else 0
    | none => 0
  max 0 (on_hand + in_transit)

/-- Embeds the `hist_map` precomputation of `generate_purchase_plan`: the sum
of `max(0, r.actual_sales_qty)` over history records with this exact
(item, month) key, defaulting to 0. -/
def hist_actual (F : PurchasePlanForecaster) (item_id : String) (month : ℕ) : ℤ :=
  ((F.sales_history.filter (fun r => r.item_id == item_id && r.month == month)).map
    (fun r => max 0 r.actual_sales_qty)).sum

/-- Embeds `month_fcst = f.forecasted_sales_qty if f else mean_d * 30.0`. -/
def month_fcst (F : PurchasePlanForecaster) (item_id : String) (mean_d : ℚ)
    (month : ℕ) : ℚ :=
  match F.pick_monthly_forecast item_id month with
  | some f => (f.forecasted_sales_qty : ℚ)
  | none => mean_d * 30

/-- Embeds `monthly_expected = max(month_fcst, mean_d * 20.0)`. -/
def monthly_expected (F : PurchasePlanForecaster) (item_id : String) (mean_d : ℚ)
    (month : ℕ) : ℚ :=
  max (F.month_fcst item_id mean_d month) (mean_d * 20)

end PurchasePlanForecaster

/-- Embeds `L = max(0, p.order_lead_time_days or 0)` (`or 0` is the identity
on an integer field). -/
def lead_days (p : ItemParameters) : ℤ :=
  max 0 p.order_lead_time_days

/-- Embeds `horizon = max(1, L + R)`. -/
def horizon_days (p : ItemParameters) (R : ℤ) : ℤ :=
  max 1 (lead_days p + R)

/-- Embeds the order-up-to level `S = mean_d * horizon + Z * std_d * sqrt(horizon)`. -/
noncomputable def order_up_to (mean_d : ℚ) (std_d : ℝ) (Z : ℚ) (horizon : ℤ) : ℝ :=
  (mean_d : ℝ) * (horizon : ℝ) + (Z : ℝ) * std_d * Real.sqrt (horizon : ℝ)

/-- Embeds `raw = max(0, int(math.ceil(S - available)))`. -/
noncomputable def raw_order (mean_d : ℚ) (std_d : ℝ) (Z : ℚ) (horizon : ℤ)
    (available : ℤ) : ℤ :=
  max 0 ⌈order_up_to mean_d std_d Z horizon - (available : ℝ)⌉

namespace PurchasePlanForecaster

/-- Embeds one iteration of the month loop of `generate_purchase_plan`: the
construction of the `PurchaseForecast` row for the given month from the
fixed per-item data (`available`, `mean_d`, `std_d`, `Z`, `R`, `p`) and the
rolled-forward `opening`.  The sum in `closing` is all-integer, so the
`int(round(...))` of the source is the identity, as is `int(round(opening))`. -/
noncomputable def month_row (F : PurchasePlanForecaster) (item_id : String)
    (p : ItemParameters) (mean_d : ℚ) (std_d : ℝ) (Z : ℚ) (R : ℤ)
    (available opening : ℤ) (month : ℕ) : PurchaseForecast :=
  let me := F.monthly_expected item_id mean_d month
  let raw := raw_order mean_d std_d Z (horizon_days p R) available
  let capped := cap_by_cover_and_shelf raw p me
  let rounded := round_to_moq_multiple capped p.minimum_order_qty p.order_multiple
  let total : ℚ := (rounded : ℚ) * p.unit_cost
  let planned_intake := rounded
  let actual_intake : ℤ := 0
  let forecasted_sales_units := pyRound me
  let closing := max 0 (opening + planned_intake + actual_intake - forecasted_sales_units)
  { forecast_month := month
    item_id := item_id
    item_name := p.item_name
    category := p.category
    segment := p.segment
    adjusted_demand := forecasted_sales_units
    optimized_order_qty := rounded
    effective_unit_cost := p.unit_cost
    total_order_cost := total
    opening_inventory_units := opening
    planned_intake_units := planned_intake
    actual_intake_units := actual_intake
    forecasted_sales_units := forecasted_sales_units
    actual_sales_units := F.hist_actual item_id month
    closing_inventory_units := closing
    future_cover_months := if 0 < me then (closing : ℚ) / me else 0
    order_by_date := (month, 1)
    expected_delivery_date := (month, 28)
    supplier_name := p.supplier }

/-- Embeds the month loop `for i in range(num_months)` of
`generate_purchase_plan` as structural recursion: `i` is the current month
index, `n` the number of months still to emit, and `opening` the carried
rollforward accumulator (`opening = closing` at the end of each iteration). -/
noncomputable def plan_months (F : PurchasePlanForecaster) (item_id : String)
    (p : ItemParameters) (mean_d : ℚ) (std_d : ℝ) (Z : ℚ) (R : ℤ)
    (available : ℤ) (start_month : ℕ) : ℤ → ℕ → ℕ → List PurchaseForecast
  | _, _, 0 => []
  | opening, i, Nat.succ m =>
    let row := F.month_row item_id p mean_d std_d Z R available opening (start_month + i)
    row :: plan_months F item_id p mean_d std_d Z R available start_month
      row.closing_inventory_units (i + 1) m

/-- Embeds the body of the item loop of `generate_purchase_plan` for one
`(item_id, p)` entry of `item_params`. -/
noncomputable def item_plan (F : PurchasePlanForecaster) (item_id : String)
    (p : ItemParameters) (Z : ℚ) (R : ℤ) (include_in_transit : Bool)
    (start_month : ℕ) (num_months : ℕ) : List PurchaseForecast :=
  let available := F.available_stock include_in_transit item_id
  let mean_d := F.hist_mean_d item_id
  let std_d := F.hist_std_d item_id
  F.plan_months item_id p mean_d std_d Z R available start_month available 0 num_months

/-- Embeds `generate_purchase_plan`: rows are appended item by item in
`item_params` order, month by month within an item. -/
noncomputable def generate_purchase_plan (F : PurchasePlanForecaster)
    (start_month : ℕ) (num_months : ℕ) (service_level : ℚ)
    (review_period_days : ℤ) (include_in_transit : Bool) : List PurchaseForecast :=
  let Z := zOfService service_level
  F.item_params.flatMap
    (fun ip => F.item_plan ip.1 ip.2 Z review_period_days include_in_transit
      start_month num_months)

end PurchasePlanForecaster

/-! Concrete catalog for the worked example of the spec (item SKU1):
lead time 15 days, MOQ 50, order multiple 25, unit cost 10, no shelf life,
max stock cover 2 months, 12 months of history with monthly mean 300 and
unbiased sample std-dev 30, zero current stock, no forecast records. -/

/-- Item parameters of the worked example. -/
def skuParams : ItemParameters :=
  { item_id := "SKU1", item_name := "SKU1", supplier := "ACME",
    order_lead_time_days := 15, minimum_order_qty := 50, order_multiple := 25,
    unit_cost := 10, shelf_life_days := OptFloat.absent, safety_stock_days := 0,
    max_stock_cover_months := OptFloat.num 2, category := none, segment := none }

/-- One history record of the worked example. -/
def skuRecord (month : ℕ) (qty : ℤ) : HistoricalSalesData :=
  { month := month, item_id := "SKU1", item_name := "SKU1",
    actual_sales_qty := qty, stock_available := true, lost_sales_qty := 0,
    unit_price := 12, category := "general" }

/-- Twelve months of history (months 0 to 11) with totals of mean 300 and
sample standard deviation 30: the squared deviations are
2 * 70 ^ 2 + 4 * 5 ^ 2 = 9900 and 9900 / 11 = 900 = 30 ^ 2. -/
def skuHistory : List HistoricalSalesData :=
  [skuRecord 0 370, skuRecord 1 230, skuRecord 2 305, skuRecord 3 295,
   skuRecord 4 305, skuRecord 5 295, skuRecord 6 300, skuRecord 7 300,
   skuRecord 8 300, skuRecord 9 300, skuRecord 10 300, skuRecord 11 300]

/-- The loaded engine of the worked example: one item, its 12-month history,
no inventory record (zero stock) and no forecast records. -/
def skuForecaster : PurchasePlanForecaster :=
  { sales_history := skuHistory,
    item_params := [("SKU1", skuParams)],
    current_inventory := [],
    sales_forecasts_n12 := [] }

/-! Structural lemmas about the month loop. -/

namespace PurchasePlanForecaster

variable (F : PurchasePlanForecaster) (item_id : String) (p : ItemParameters)
variable (mean_d : ℚ) (std_d : ℝ) (Z : ℚ) (R : ℤ)

lemma plan_months_zero (available : ℤ) (start_month : ℕ) (o : ℤ) (i : ℕ) :
    F.plan_months item_id p mean_d std_d Z R available start_month o i 0 = [] :=
  rfl

lemma plan_months_succ (available : ℤ) (start_month : ℕ) (o : ℤ) (i n : ℕ) :
    F.plan_months item_id p mean_d std_d Z R available start_month o i (n + 1) =
      F.month_row item_id p mean_d std_d Z R available o (start_month + i) ::
        F.plan_months item_id p mean_d std_d Z R available start_month
          (F.month_row item_id p mean_d std_d Z R available o
            (start_month + i)).closing_inventory_units (i + 1) n :=
  rfl

lemma plan_months_length (available : ℤ) (start_month : ℕ) :
    ∀ (n : ℕ) (o : ℤ) (i : ℕ),
      (F.plan_months item_id p mean_d std_d Z R available start_month o i n).length = n := by
  intro n
  induction n with
  | zero => intro o i; rfl
  | succ m ih =>
    intro o i
    rw [plan_months_succ, List.length_cons, ih]

lemma month_row_item_id (available o : ℤ) (month : ℕ) :
    (F.month_row item_id p mean_d std_d Z R available o month).item_id = item_id :=
  rfl

lemma month_row_forecast_month (available o : ℤ) (month : ℕ) :
    (F.month_row item_id p mean_d std_d Z R available o month).forecast_month = month :=
  rfl

lemma month_row_opening (available o : ℤ) (month : ℕ) :
    (F.month_row item_id p mean_d std_d Z R available o month).opening_inventory_units = o :=
  rfl

lemma month_row_order_by_date (available o : ℤ) (month : ℕ) :
    (F.month_row item_id p mean_d std_d Z R available o month).order_by_date = (month, 1) :=
  rfl

lemma month_row_delivery_date (available o : ℤ) (month : ℕ) :
    (F.month_row item_id p mean_d std_d Z R available o month).expected_delivery_date =
      (month, 28) :=
  rfl

lemma plan_months_item_id (available : ℤ) (start_month : ℕ) :
    ∀ (n : ℕ) (o : ℤ) (i : ℕ),
      ∀ r ∈ F.plan_months item_id p mean_d std_d Z R available start_month o i n,
        r.item_id = item_id := by
  intro n
  induction n with
  | zero => intro o i r hr; simp [plan_months_zero] at hr
  | succ m ih =>
    intro o i r hr
    rw [plan_months_succ] at hr
    rcases List.mem_cons.mp hr with h | h
    · rw [h, month_row_item_id]
    · exact ih _ _ r h

lemma plan_months_get_month (available : ℤ) (start_month : ℕ) :
    ∀ (n : ℕ) (o : ℤ) (i j : ℕ)
      (h : j < (F.plan_months item_id p mean_d std_d Z R available start_month o i n).length),
      ((F.plan_months item_id p mean_d std_d Z R available start_month o i n).get
        ⟨j, h⟩).forecast_month = start_month + i + j := by
  intro n
  induction n with
  | zero => intro o i j h; simp [plan_months_zero] at h
  | succ m ih =>
    intro o i j h
    match j with
    | 0 => simp [plan_months_succ, month_row_forecast_month]
    | Nat.succ k =>
      have h2 : k < (F.plan_months item_id p mean_d std_d Z R available start_month
          (F.month_row item_id p mean_d std_d Z R available o
            (start_month + i)).closing_inventory_units (i + 1) m).length := by
        rw [plan_months_length]
        rw [plan_months_succ, List.length_cons, plan_months_length] at h
        omega
      have := ih (F.month_row item_id p mean_d std_d Z R available o
          (start_month + i)).closing_inventory_units (i + 1) k h2
      simp only [plan_months_succ, List.get_cons_succ]
      rw [this]
      omega

lemma plan_months_get_zero_opening (available : ℤ) (start_month : ℕ) (n : ℕ)
    (o : ℤ) (i : ℕ)
    (h : 0 < (F.plan_months item_id p mean_d std_d Z R available start_month o i n).length) :
    ((F.plan_months item_id p mean_d std_d Z R available start_month o i n).get
      ⟨0, h⟩).opening_inventory_units = o := by
  match n with
  | 0 => simp [plan_months_zero] at h
  | Nat.succ m => simp [plan_months_succ, month_row_opening]

lemma plan_months_chain (available : ℤ) (start_month : ℕ) :
    ∀ (n : ℕ) (o : ℤ) (i j : ℕ)
      (h : j + 1 < (F.plan_months item_id p mean_d std_d Z R available start_month o i n).length),
      ((F.plan_months item_id p mean_d std_d Z R available start_month o i n).get
        ⟨j + 1, h⟩).opening_inventory_units =
      ((F.plan_months item_id p mean_d std_d Z R available start_month o i n).get
        ⟨j, Nat.lt_of_succ_lt h⟩).closing_inventory_units := by
  intro n
  induction n with
  | zero => intro o i j h; simp [plan_months_zero] at h
  | succ m ih =>
    intro o i j h
    have h2 : j < (F.plan_months item_id p mean_d std_d Z R available start_month
        (F.month_row item_id p mean_d std_d Z R available o
          (start_month + i)).closing_inventory_units (i + 1) m).length := by
      rw [plan_months_length]
      rw [plan_months_succ, List.length_cons, plan_months_length] at h
      omega
    match j with
    | 0 =>
      simp only [plan_months_succ, List.get_cons_succ, List.get_cons_zero]
      exact F.plan_months_get_zero_opening item_id p mean_d std_d Z R available
        start_month m _ (i + 1) h2
    | Nat.succ k =>
      simp only [plan_months_succ, List.get_cons_succ]
      exact ih _ (i + 1) k h2

lemma month_row_optimized (available o : ℤ) (month : ℕ) :
    (F.month_row item_id p mean_d std_d Z R available o month).optimized_order_qty =
      round_to_moq_multiple
        (cap_by_cover_and_shelf
          (raw_order mean_d std_d Z (horizon_days p R) available) p
          (F.monthly_expected item_id mean_d month))
        p.minimum_order_qty p.order_multiple :=
  rfl

lemma month_row_closing_eq (available o : ℤ) (month : ℕ) :
    (F.month_row item_id p mean_d std_d Z R available o month).closing_inventory_units =
      max 0
        ((F.month_row item_id p mean_d std_d Z R available o month).opening_inventory_units +
         (F.month_row item_id p mean_d std_d Z R available o month).planned_intake_units +
         (F.month_row item_id p mean_d std_d Z R available o month).actual_intake_units -
         (F.month_row item_id p mean_d std_d Z R available o month).forecasted_sales_units) :=
  rfl

lemma plan_months_closing (available : ℤ) (start_month : ℕ) :
    ∀ (n : ℕ) (o : ℤ) (i : ℕ),
      ∀ r ∈ F.plan_months item_id p mean_d std_d Z R available start_month o i n,
        r.closing_inventory_units =
          max 0 (r.opening_inventory_units + r.planned_intake_units +
            r.actual_intake_units - r.forecasted_sales_units) := by
  intro n
  induction n with
  | zero => intro o i r hr; simp [plan_months_zero] at hr
  | succ m ih =>
    intro o i r hr
    rw [plan_months_succ] at hr
    rcases List.mem_cons.mp hr with h | h
    · subst h
      exact month_row_closing_eq F item_id p mean_d std_d Z R available o _
    · exact ih _ _ r h

lemma plan_months_dates (available : ℤ) (start_month : ℕ) :
    ∀ (n : ℕ) (o : ℤ) (i : ℕ),
      ∀ r ∈ F.plan_months item_id p mean_d std_d Z R available start_month o i n,
        r.order_by_date = (r.forecast_month, 1) ∧
        r.expected_delivery_date = (r.forecast_month, 28) := by
  intro n
  induction n with
  | zero => intro o i r hr; simp [plan_months_zero] at hr
  | succ m ih =>
    intro o i r hr
    rw [plan_months_succ] at hr
    rcases List.mem_cons.mp hr with h | h
    · subst h
      simp only [month_row_forecast_month, month_row_order_by_date,
        month_row_delivery_date, and_self]
    · exact ih _ _ r h

lemma item_plan_eq (include_in_transit : Bool) (start_month n : ℕ) :
    F.item_plan item_id p Z R include_in_transit start_month n =
      F.plan_months item_id p (F.hist_mean_d item_id) (F.hist_std_d item_id) Z R
        (F.available_stock include_in_transit item_id) start_month
        (F.available_stock include_in_transit item_id) 0 n :=
  rfl

lemma item_plan_length (include_in_transit : Bool) (start_month n : ℕ) :
    (F.item_plan item_id p Z R include_in_transit start_month n).length = n := by
  rw [item_plan_eq, plan_months_length]

lemma plan_months_map_month (available : ℤ) (start_month : ℕ) :
    ∀ (n : ℕ) (o : ℤ) (i : ℕ),
      (F.plan_months item_id p mean_d std_d Z R available start_month o i n).map
          (fun r => r.forecast_month) =
        (List.range n).map (fun j => start_month + i + j) := by
  intro n
  induction n with
  | zero => intro o i; rfl
  | succ m ih =>
    intro o i
    rw [plan_months_succ, List.map_cons, List.range_succ_eq_map, List.map_cons,
      List.map_map, month_row_forecast_month, ih]
    have h2 : ((fun j => start_month + i + j) ∘ Nat.succ) =
        (fun j => start_month + (i + 1) + j) := by
      funext j
      simp only [Function.comp_apply]
      omega
    rw [h2]
    exact congrArg₂ List.cons (by omega) rfl

lemma item_plan_item_id (include_in_transit : Bool) (start_month n : ℕ) :
    ∀ r ∈ F.item_plan item_id p Z R include_in_transit start_month n,
      r.item_id = item_id := by
  rw [item_plan_eq]
  exact F.plan_months_item_id item_id p (F.hist_mean_d item_id)
    (F.hist_std_d item_id) Z R _ start_month n _ 0

lemma plan_filter_of_mem (include_in_transit : Bool) (start_month n : ℕ) :
    ∀ (ips : List (String × ItemParameters)) (id : String) (q : ItemParameters),
      (ips.map Prod.fst).Nodup → (id, q) ∈ ips →
      (ips.flatMap
          (fun ip => F.item_plan ip.1 ip.2 Z R include_in_transit start_month n)).filter
        (fun r => r.item_id == id) =
      F.item_plan id q Z R include_in_transit start_month n := by
  intro ips
  induction ips with
  | nil =>
    intro id q _ h
    simp at h
  | cons a t ih =>
    intro id q hnd hmem
    rw [List.flatMap_cons, List.filter_append]
    rcases List.mem_cons.mp hmem with h | h
    · subst h
      have h1 : (F.item_plan id q Z R include_in_transit start_month n).filter
          (fun r => r.item_id == id) =
          F.item_plan id q Z R include_in_transit start_month n := by
        refine List.filter_eq_self.mpr ?_
        intro r hr
        rw [F.item_plan_item_id id q Z R include_in_transit start_month n r hr]
        exact beq_self_eq_true id
      have h2 : (t.flatMap
          (fun ip => F.item_plan ip.1 ip.2 Z R include_in_transit start_month n)).filter
          (fun r => r.item_id == id) = [] := by
        refine List.filter_eq_nil_iff.mpr ?_
        intro r hr
        rw [List.mem_flatMap] at hr
        obtain ⟨ip, hip, hr2⟩ := hr
        have hrid := F.item_plan_item_id ip.1 ip.2 Z R include_in_transit
          start_month n r hr2
        have hne : ip.1 ≠ id := by
          intro he
          have : id ∈ t.map Prod.fst := he ▸ List.mem_map_of_mem Prod.fst hip
          exact (List.nodup_cons.mp hnd).1 this
        simp [hrid, hne]
      rw [h1, h2, List.append_nil]
    · have hne : a.1 ≠ id := by
        intro he
        have : id ∈ t.map Prod.fst := by
          have : (id, q).1 ∈ t.map Prod.fst := List.mem_map_of_mem Prod.fst h
          exact this
        exact (List.nodup_cons.mp hnd).1 (he ▸ this)
      have h1 : (F.item_plan a.1 a.2 Z R include_in_transit start_month n).filter
          (fun r => r.item_id == id) = [] := by
        refine List.filter_eq_nil_iff.mpr ?_
        intro r hr
        have hrid := F.item_plan_item_id a.1 a.2 Z R include_in_transit
          start_month n r hr
        simp [hrid, hne]
      rw [h1, List.nil_append]
      exact ih id q (List.nodup_cons.mp hnd).2 h

lemma plan_filter_of_not_mem (include_in_transit : Bool) (start_month n : ℕ)
    (ips : List (String × ItemParameters)) (id : String)
    (hid : id ∉ ips.map Prod.fst) :
    (ips.flatMap
        (fun ip => F.item_plan ip.1 ip.2 Z R include_in_transit start_month n)).filter
      (fun r => r.item_id == id) = [] := by
  refine List.filter_eq_nil_iff.mpr ?_
  intro r hr
  rw [List.mem_flatMap] at hr
  obtain ⟨ip, hip, hr2⟩ := hr
  have hrid := F.item_plan_item_id ip.1 ip.2 Z R include_in_transit start_month n r hr2
  have hne : ip.1 ≠ id := by
    intro he
    exact hid (he ▸ List.mem_map_of_mem Prod.fst hip)
  simp [hrid, hne]

end PurchasePlanForecaster

/-! Theorems about the claims. -/

/-- Claim C1 is refuted at a concrete input: with `minimum_order_qty = 30`
and `order_multiple = 25`, a quantity of 1 rounds up to 25 and is then
raised to the MOQ 30, which is not a multiple of 25.  So the result is
neither 0 nor an exact multiple of `order_multiple`. -/
theorem c1_counterexample :
    round_to_moq_multiple 1 30 25 = 30 ∧
    ¬ (round_to_moq_multiple 1 30 25 = 0 ∨
       (25 : ℤ) ∣ round_to_moq_multiple 1 30 25) := by
  decide

/-- Claim C1, amended: for `order_multiple ≥ 1`, the rounded quantity is
either 0, or it is at least `max(minimum_order_qty, order_multiple)` and is
an exact multiple of `order_multiple` unless it equals `minimum_order_qty`
(which happens when the MOQ exceeds the rounded-up multiple). -/
theorem c1_round_properties (qty moq multiple : ℤ) (h : 1 ≤ multiple) :
    round_to_moq_multiple qty moq multiple = 0 ∨
    (max moq multiple ≤ round_to_moq_multiple qty moq multiple ∧
     (multiple ∣ round_to_moq_multiple qty moq multiple ∨
      round_to_moq_multiple qty moq multiple = moq)) := by
  simp only [round_to_moq_multiple]
  split
  · exact Or.inl rfl
  · rename_i hq
    right
    rw [if_neg (by omega : ¬ multiple = 0), max_eq_right h]
    have hpos : 0 < multiple := h
    have hfd : Int.fdiv (qty + multiple - 1) multiple = (qty + multiple - 1) / multiple :=
      Int.fdiv_eq_ediv _ (le_of_lt hpos)
    have hd1 : 1 ≤ (qty + multiple - 1) / multiple := by
      rw [Int.le_ediv_iff_mul_le hpos]
      omega
    have hrge : multiple ≤ (qty + multiple - 1) / multiple * multiple := by
      calc multiple = 1 * multiple := (one_mul _).symm
        _ ≤ (qty + multiple - 1) / multiple * multiple :=
            mul_le_mul_of_nonneg_right hd1 (le_of_lt hpos)
    have hdvd : multiple ∣ (qty + multiple - 1) / multiple * multiple :=
      dvd_mul_left multiple _
    rw [hfd]
    constructor
    · exact max_le (le_max_of_le_right (le_max_right 0 moq)) (le_max_of_le_left hrge)
    · rcases le_total (max 0 moq) ((qty + multiple - 1) / multiple * multiple) with hc | hc
      · left
        rw [max_eq_left hc]
        exact hdvd
      · rw [max_eq_right hc]
        have h0 : 0 ≤ moq := by
          by_contra hneg
          have : max 0 moq = 0 := max_eq_left (by omega)
          omega
        right
        exact max_eq_right h0

/-- Witness for `c1_round_properties` at qty 1, moq 30, multiple 25. -/
theorem c1_round_properties_witness :
    (1 : ℤ) ≤ 25 ∧
    (round_to_moq_multiple 1 30 25 = 0 ∨
     (max 30 25 ≤ round_to_moq_multiple 1 30 25 ∧
      ((25 : ℤ) ∣ round_to_moq_multiple 1 30 25 ∨
       round_to_moq_multiple 1 30 25 = 30))) :=
  ⟨by decide, c1_round_properties 1 30 25 (by decide)⟩

/-- Claim C4: the capping step never caps when monthly demand is
nonpositive or when both optional inputs are absent (None/NaN), and when
demand is positive it clamps to the floor of the applicable cap products,
the maximum (least restrictive) of the two when both are present and
positive.  The function is total on the full `OptFloat` input domain, so
absent inputs never raise. -/
theorem c4_cap_least_restrictive (raw : ℤ) (p : ItemParameters) (md : ℚ) :
    ((md ≤ 0 ∨ (num_or_none p.max_stock_cover_months = none ∧
        num_or_none p.shelf_life_days = none)) →
      cap_by_cover_and_shelf raw p md = max 0 raw) ∧
    (∀ c sd : ℚ, 0 < md →
      num_or_none p.max_stock_cover_months = some c → 0 < c →
      num_or_none p.shelf_life_days = some sd → 0 < sd →
      cap_by_cover_and_shelf raw p md =
        max 0 (min (max 0 raw) (max ⌊c * md⌋ ⌊sd / 30 * md⌋))) ∧
    (∀ c : ℚ, 0 < md →
      num_or_none p.max_stock_cover_months = some c → 0 < c →
      num_or_none p.shelf_life_days = none →
      cap_by_cover_and_shelf raw p md = max 0 (min (max 0 raw) ⌊c * md⌋)) ∧
    (∀ sd : ℚ, 0 < md →
      num_or_none p.max_stock_cover_months = none →
      num_or_none p.shelf_life_days = some sd → 0 < sd →
      cap_by_cover_and_shelf raw p md = max 0 (min (max 0 raw) ⌊sd / 30 * md⌋)) ∧
    (∀ c sd : ℚ, 0 < md →
      num_or_none p.max_stock_cover_months = some c → 0 < c →
      num_or_none p.shelf_life_days = some sd → sd ≤ 0 →
      cap_by_cover_and_shelf raw p md = max 0 (min (max 0 raw) ⌊c * md⌋)) ∧
    (∀ c sd : ℚ, 0 < md →
      num_or_none p.max_stock_cover_months = some c → c ≤ 0 →
      num_or_none p.shelf_life_days = some sd → 0 < sd →
      cap_by_cover_and_shelf raw p md = max 0 (min (max 0 raw) ⌊sd / 30 * md⌋)) := by
  refine ⟨?_, ?_, ?_, ?_, ?_, ?_⟩
  · rintro (hmd | ⟨hc, hs⟩)
    · simp [cap_by_cover_and_shelf, hmd]
    · simp [cap_by_cover_and_shelf, hc, hs]
  · intro c sd hmd hc hcpos hs hspos
    simp [cap_by_cover_and_shelf, not_le.mpr hmd, hc, hs, hcpos, hspos, List.max?]
  · intro c hmd hc hcpos hs
    simp [cap_by_cover_and_shelf, not_le.mpr hmd, hc, hs, hcpos, List.max?]
  · intro sd hmd hc hs hspos
    simp [cap_by_cover_and_shelf, not_le.mpr hmd, hc, hs, hspos, List.max?]
  · intro c sd hmd hc hcpos hs hsle
    simp [cap_by_cover_and_shelf, not_le.mpr hmd, hc, hs, hcpos,
      not_lt.mpr hsle, List.max?]
  · intro c sd hmd hc hcle hs hspos
    simp [cap_by_cover_and_shelf, not_le.mpr hmd, hc, hs, hspos,
      not_lt.mpr hcle, List.max?]

/-- Witness for `c4_cap_least_restrictive`: with cover 2, shelf 45 days and
monthly demand 300 the caps are 600 and 450, and a raw quantity of 700 is
clamped to the larger cap 600. -/
theorem c4_cap_witness :
    cap_by_cover_and_shelf 700
      { item_id := "W", item_name := "W", supplier := "S",
        order_lead_time_days := 0, minimum_order_qty := 0, order_multiple := 1,
        unit_cost := 1, shelf_life_days := OptFloat.num 45,
        safety_stock_days := 0, max_stock_cover_months := OptFloat.num 2,
        category := none, segment := none } 300 = 600 := by
  have h := (c4_cap_least_restrictive 700
    { item_id := "W", item_name := "W", supplier := "S",
      order_lead_time_days := 0, minimum_order_qty := 0, order_multiple := 1,
      unit_cost := 1, shelf_life_days := OptFloat.num 45,
      safety_stock_days := 0, max_stock_cover_months := OptFloat.num 2,
      category := none, segment := none } 300).2.1 2 45
    (by norm_num) rfl (by norm_num) rfl (by norm_num)
  rw [h]
  norm_num

/-- Claim C8: over the recognized service levels, a higher service level
maps to a z-score at least as large, so the order-up-to level S and hence
the raw order quantity never decrease (for nonnegative demand std-dev). -/
theorem c8_service_level_monotone (s1 s2 : ℚ)
    (h1 : s1 = 90/100 ∨ s1 = 95/100 ∨ s1 = 98/100 ∨ s1 = 99/100)
    (h2 : s2 = 90/100 ∨ s2 = 95/100 ∨ s2 = 98/100 ∨ s2 = 99/100)
    (hle : s1 ≤ s2) (mean_d : ℚ) (std_d : ℝ) (hstd : 0 ≤ std_d)
    (horizon : ℤ) (available : ℤ) :
    order_up_to mean_d std_d (zOfService s1) horizon ≤
      order_up_to mean_d std_d (zOfService s2) horizon ∧
    raw_order mean_d std_d (zOfService s1) horizon available ≤
      raw_order mean_d std_d (zOfService s2) horizon available := by
  have hz : zOfService s1 ≤ zOfService s2 := by
    rcases h1 with rfl | rfl | rfl | rfl <;> rcases h2 with rfl | rfl | rfl | rfl <;>
      simp [zOfService] <;> norm_num at hle ⊢
  have hS : order_up_to mean_d std_d (zOfService s1) horizon ≤
      order_up_to mean_d std_d (zOfService s2) horizon := by
    unfold order_up_to
    have hzr : ((zOfService s1 : ℚ) : ℝ) ≤ ((zOfService s2 : ℚ) : ℝ) := by
      exact_mod_cast hz
    have hsq : 0 ≤ Real.sqrt (horizon : ℝ) := Real.sqrt_nonneg _
    nlinarith [mul_le_mul_of_nonneg_right
      (mul_le_mul_of_nonneg_right hzr hstd) hsq]
  refine ⟨hS, ?_⟩
  unfold raw_order
  exact max_le_max le_rfl (Int.ceil_le_ceil (by linarith))

/-- Claim C3: the raw order quantity is `max(0, ceil(S - available))` with
`available` the value fixed at item initialisation, and the emitted order
quantities of a whole item plan are unchanged when the rollforward opening
accumulator is replaced by any other value: month i orders do not depend on
the rolled-forward opening/closing inventory of earlier months. -/
theorem c3_raw_independent_of_rollforward (F : PurchasePlanForecaster)
    (item_id : String) (p : ItemParameters) (mean_d : ℚ) (std_d : ℝ) (Z : ℚ)
    (R : ℤ) (available : ℤ) (start_month : ℕ) (o1 o2 : ℤ) (i n : ℕ) :
    raw_order mean_d std_d Z (horizon_days p R) available =
      max 0 ⌈order_up_to mean_d std_d Z (horizon_days p R) - (available : ℝ)⌉ ∧
    (F.plan_months item_id p mean_d std_d Z R available start_month o1 i n).map
        (fun r => r.optimized_order_qty) =
      (F.plan_months item_id p mean_d std_d Z R available start_month o2 i n).map
        (fun r => r.optimized_order_qty) := by
  refine ⟨rfl, ?_⟩
  induction n generalizing o1 o2 i with
  | zero => rfl
  | succ m ih =>
    rw [PurchasePlanForecaster.plan_months_succ,
      PurchasePlanForecaster.plan_months_succ, List.map_cons, List.map_cons]
    exact congrArg₂ List.cons rfl (ih _ _ _)

set_option maxHeartbeats 1600000 in
/-- Claim C9: the daily mean is floored at 0.1 (and defaults to 1.0 with no
history), so `monthly_expected = max(fcst, mean_d * 20) ≥ 2 > 0` for the
value of `mean_d` the plan always passes in; consequently the nonpositive
demand fallbacks are unreachable and every emitted row computes
`future_cover_months` as `closing / monthly_expected`. -/
theorem c9_monthly_expected_ge_two (F : PurchasePlanForecaster)
    (item_id : String) (month : ℕ) (p : ItemParameters) (std_d : ℝ) (Z : ℚ)
    (R : ℤ) (available opening : ℤ) :
    2 ≤ F.monthly_expected item_id (F.hist_mean_d item_id) month ∧
    (F.month_row item_id p (F.hist_mean_d item_id) std_d Z R available opening
        month).future_cover_months =
      ((F.month_row item_id p (F.hist_mean_d item_id) std_d Z R available opening
          month).closing_inventory_units : ℚ) /
        F.monthly_expected item_id (F.hist_mean_d item_id) month := by
  have hmean : (1/10 : ℚ) ≤ F.hist_mean_d item_id := by
    unfold PurchasePlanForecaster.hist_mean_d
    split
    · norm_num
    · exact le_max_right _ _
  have hme : (2 : ℚ) ≤ F.monthly_expected item_id (F.hist_mean_d item_id) month := by
    unfold PurchasePlanForecaster.monthly_expected
    refine le_trans ?_ (le_max_right _ _)
    linarith
  have hpos : (0 : ℚ) < F.monthly_expected item_id (F.hist_mean_d item_id) month :=
    lt_of_lt_of_le (by norm_num) hme
  refine ⟨hme, ?_⟩
  have hfc : (F.month_row item_id p (F.hist_mean_d item_id) std_d Z R available
      opening month).future_cover_months =
      (if 0 < F.monthly_expected item_id (F.hist_mean_d item_id) month then
        ((F.month_row item_id p (F.hist_mean_d item_id) std_d Z R available
            opening month).closing_inventory_units : ℚ) /
          F.monthly_expected item_id (F.hist_mean_d item_id) month
      else 0) := rfl
  rw [hfc, if_pos hpos]

/-- Claim C10: every emitted row dates the order on day 1 and the delivery
on day 28 of the forecast month itself, for all parameters; in particular
the lead time never shifts these dates. -/
theorem c10_dates_ignore_lead_time (F : PurchasePlanForecaster)
    (start_month num_months : ℕ) (service_level : ℚ) (R : ℤ)
    (include_in_transit : Bool) :
    ∀ r ∈ F.generate_purchase_plan start_month num_months service_level R
        include_in_transit,
      r.order_by_date = (r.forecast_month, 1) ∧
      r.expected_delivery_date = (r.forecast_month, 28) := by
  intro r hr
  unfold PurchasePlanForecaster.generate_purchase_plan at hr
  rw [List.mem_flatMap] at hr
  obtain ⟨ip, _, hr2⟩ := hr
  unfold PurchasePlanForecaster.item_plan at hr2
  exact F.plan_months_dates ip.1 ip.2 (F.hist_mean_d ip.1) (F.hist_std_d ip.1)
    (zOfService service_level) R
    (F.available_stock include_in_transit ip.1) start_month num_months
    (F.available_stock include_in_transit ip.1) 0 r hr2

/-- Witness for `c10_dates_ignore_lead_time` at the first row of the worked
example plan. -/
theorem c10_dates_witness :
    (skuForecaster.month_row "SKU1" skuParams (skuForecaster.hist_mean_d "SKU1")
        (skuForecaster.hist_std_d "SKU1") (zOfService (95/100)) 30
        (skuForecaster.available_stock true "SKU1")
        (skuForecaster.available_stock true "SKU1") 12).order_by_date =
      ((skuForecaster.month_row "SKU1" skuParams (skuForecaster.hist_mean_d "SKU1")
        (skuForecaster.hist_std_d "SKU1") (zOfService (95/100)) 30
        (skuForecaster.available_stock true "SKU1")
        (skuForecaster.available_stock true "SKU1") 12).forecast_month, 1) ∧
    (skuForecaster.month_row "SKU1" skuParams (skuForecaster.hist_mean_d "SKU1")
        (skuForecaster.hist_std_d "SKU1") (zOfService (95/100)) 30
        (skuForecaster.available_stock true "SKU1")
        (skuForecaster.available_stock true "SKU1") 12).expected_delivery_date =
      ((skuForecaster.month_row "SKU1" skuParams (skuForecaster.hist_mean_d "SKU1")
        (skuForecaster.hist_std_d "SKU1") (zOfService (95/100)) 30
        (skuForecaster.available_stock true "SKU1")
        (skuForecaster.available_stock true "SKU1") 12).forecast_month, 28) := by
  refine c10_dates_ignore_lead_time skuForecaster 12 1 (95/100) 30 true _ ?_
  simp [PurchasePlanForecaster.generate_purchase_plan,
    PurchasePlanForecaster.item_plan, PurchasePlanForecaster.plan_months,
    skuForecaster, List.flatMap]

/-- Claim C6: for the row sequence of one item, the first opening equals the
available stock captured from current inventory (with 0 defaults when the
item has no inventory record), every closing equals
`max(0, opening + planned_intake + actual_intake - forecasted_sales)` and is
nonnegative, and consecutive rows satisfy closing = next opening. -/
theorem c6_rollforward_invariants (F : PurchasePlanForecaster) (item_id : String)
    (p : ItemParameters) (Z : ℚ) (R : ℤ) (include_in_transit : Bool)
    (start_month n : ℕ) :
    (0 < n →
      (F.item_plan item_id p Z R include_in_transit start_month n).head?.map
          (fun r => r.opening_inventory_units) =
        some (F.available_stock include_in_transit item_id)) ∧
    (∀ r ∈ F.item_plan item_id p Z R include_in_transit start_month n,
      r.closing_inventory_units =
        max 0 (r.opening_inventory_units + r.planned_intake_units +
          r.actual_intake_units - r.forecasted_sales_units) ∧
      0 ≤ r.closing_inventory_units) ∧
    (∀ j (h : j + 1 <
        (F.item_plan item_id p Z R include_in_transit start_month n).length),
      ((F.item_plan item_id p Z R include_in_transit start_month n).get
        ⟨j, Nat.lt_of_succ_lt h⟩).closing_inventory_units =
      ((F.item_plan item_id p Z R include_in_transit start_month n).get
        ⟨j + 1, h⟩).opening_inventory_units) := by
  rw [PurchasePlanForecaster.item_plan_eq]
  refine ⟨?_, ?_, ?_⟩
  · intro hn
    match n, hn with
    | Nat.succ m, _ =>
      rw [PurchasePlanForecaster.plan_months_succ]
      simp [PurchasePlanForecaster.month_row_opening]
  · intro r hr
    refine ⟨F.plan_months_closing item_id p _ _ Z R _ start_month n _ 0 r hr, ?_⟩
    rw [F.plan_months_closing item_id p _ _ Z R _ start_month n _ 0 r hr]
    exact le_max_left 0 _
  · intro j h
    exact (F.plan_months_chain item_id p _ _ Z R _ start_month n _ 0 j h).symm

/-- Witness for `c6_rollforward_invariants` on the worked example with a
two-month horizon. -/
theorem c6_rollforward_witness :
    ((0 : ℕ) < 2) ∧
    ((skuForecaster.item_plan "SKU1" skuParams (zOfService (95/100)) 30 true 12
        2).head?.map (fun r => r.opening_inventory_units) =
      some (skuForecaster.available_stock true "SKU1")) ∧
    (∀ j (h : j + 1 <
        (skuForecaster.item_plan "SKU1" skuParams (zOfService (95/100)) 30 true 12
          2).length),
      ((skuForecaster.item_plan "SKU1" skuParams (zOfService (95/100)) 30 true 12
          2).get ⟨j, Nat.lt_of_succ_lt h⟩).closing_inventory_units =
      ((skuForecaster.item_plan "SKU1" skuParams (zOfService (95/100)) 30 true 12
          2).get ⟨j + 1, h⟩).opening_inventory_units) := by
  have h := c6_rollforward_invariants skuForecaster "SKU1" skuParams
    (zOfService (95/100)) 30 true 12 2
  exact ⟨by norm_num, h.1 (by norm_num), h.2.2⟩

/-- Claim C7: with unique item keys, every item of `item_params` yields
exactly `num_months` rows whose forecast months are the consecutive calendar
months `start_month + j` for `j = 0 .. num_months - 1` (missing inventory,
history or forecasts only change the defaulted values, not the row count),
while an identifier not in `item_params` yields no rows at all. -/
theorem c7_rows_per_item (F : PurchasePlanForecaster)
    (start_month num_months : ℕ) (service_level : ℚ) (R : ℤ)
    (include_in_transit : Bool)
    (hnd : (F.item_params.map Prod.fst).Nodup) :
    (∀ item_id q, (item_id, q) ∈ F.item_params →
      ((F.generate_purchase_plan start_month num_months service_level R
          include_in_transit).filter (fun r => r.item_id == item_id)).length =
        num_months ∧
      ((F.generate_purchase_plan start_month num_months service_level R
          include_in_transit).filter (fun r => r.item_id == item_id)).map
          (fun r => r.forecast_month) =
        (List.range num_months).map (fun j => start_month + j)) ∧
    (∀ item_id, item_id ∉ F.item_params.map Prod.fst →
      (F.generate_purchase_plan start_month num_months service_level R
          include_in_transit).filter (fun r => r.item_id == item_id) = []) := by
  constructor
  · intro id q hmem
    have hfil := F.plan_filter_of_mem (zOfService service_level) R
      include_in_transit start_month num_months F.item_params id q hnd hmem
    have hgen : F.generate_purchase_plan start_month num_months service_level R
        include_in_transit =
        F.item_params.flatMap
          (fun ip => F.item_plan ip.1 ip.2 (zOfService service_level) R
            include_in_transit start_month num_months) := rfl
    rw [hgen, hfil]
    refine ⟨F.item_plan_length id q _ R include_in_transit start_month num_months, ?_⟩
    rw [PurchasePlanForecaster.item_plan_eq, F.plan_months_map_month]
    have h0 : (fun j => start_month + 0 + j) = (fun j => start_month + j) := by
      funext j
      omega
    rw [h0]
  · intro id hid
    have hgen : F.generate_purchase_plan start_month num_months service_level R
        include_in_transit =
        F.item_params.flatMap
          (fun ip => F.item_plan ip.1 ip.2 (zOfService service_level) R
            include_in_transit start_month num_months) := rfl
    rw [hgen]
    exact F.plan_filter_of_not_mem (zOfService service_level) R include_in_transit
      start_month num_months F.item_params id hid

/-- Witness for `c7_rows_per_item` on the worked example with a three-month
horizon: SKU1 yields three rows for months 12, 13, 14 and an unknown
identifier yields none. -/
theorem c7_rows_witness :
    ((skuForecaster.generate_purchase_plan 12 3 (95/100) 30 true).filter
        (fun r => r.item_id == "SKU1")).length = 3 ∧
    ((skuForecaster.generate_purchase_plan 12 3 (95/100) 30 true).filter
        (fun r => r.item_id == "SKU1")).map (fun r => r.forecast_month) =
      (List.range 3).map (fun j => 12 + j) ∧
    (skuForecaster.generate_purchase_plan 12 3 (95/100) 30 true).filter
        (fun r => r.item_id == "OTHER") = [] := by
  have h := c7_rows_per_item skuForecaster 12 3 (95/100) 30 true
    (by simp [skuForecaster])
  have h1 := h.1 "SKU1" skuParams (by simp [skuForecaster])
  refine ⟨h1.1, h1.2, h.2 "OTHER" ?_⟩
  simp [skuForecaster]

/-- Claim C5: the demand estimator returns (1.0, 0.3) for an item with no
history; otherwise, over the trailing at most 12 records sorted by month
ascending with negative sales clamped to 0, it returns the monthly mean and
(for 2 or more months) the unbiased sample standard deviation, or 25% of
the mean for fewer, each divided by 30 and floored so that the daily mean
is at least 0.1 and the daily std-dev at least 5% of the daily mean. -/
theorem c5_hist_stats_formula (F : PurchasePlanForecaster) (item_id : String) :
    (F.histRows item_id = [] → F.hist_daily_stats item_id = (1, 0.3)) ∧
    (F.histRows item_id ≠ [] →
      (let sorted := List.insertionSort (fun a b => a.month ≤ b.month)
        (F.histRows item_id);
      let monthly : List ℤ := (sorted.drop (sorted.length - 12)).map
        (fun r => max 0 r.actual_sales_qty);
      let mean_m : ℚ := (monthly.sum : ℚ) / monthly.length;
      let mean_d : ℚ := max (mean_m / 30) (1/10);
      (F.hist_daily_stats item_id).1 = mean_d ∧
      (2 ≤ monthly.length →
        (F.hist_daily_stats item_id).2 =
          max (Real.sqrt (((monthly.map (fun x : ℤ => ((x : ℚ) - mean_m) ^ 2)).sum /
              ((monthly.length : ℚ) - 1) : ℚ)) / 30) (0.05 * (mean_d : ℝ))) ∧
      (monthly.length < 2 →
        (F.hist_daily_stats item_id).2 =
          max ((0.25 * (mean_m : ℝ)) / 30) (0.05 * (mean_d : ℝ))))) := by
  have hmono : ∀ h : F.histRows item_id ≠ [],
      F.histMonthly item_id =
        (let sorted := List.insertionSort (fun a b => a.month ≤ b.month)
          (F.histRows item_id);
        (sorted.drop (sorted.length - 12)).map (fun r => max 0 r.actual_sales_qty)) :=
    fun _ => rfl
  constructor
  · intro h
    simp [PurchasePlanForecaster.hist_daily_stats,
      PurchasePlanForecaster.hist_mean_d, PurchasePlanForecaster.hist_std_d, h]
  · intro h
    have hne : F.histMonthly item_id ≠ [] := by
      have hlen : (List.insertionSort
          (fun (a b : HistoricalSalesData) => a.month ≤ b.month)
          (F.histRows item_id)).length = (F.histRows item_id).length :=
        List.length_insertionSort _ _
      have hpos : 0 < (F.histRows item_id).length := List.length_pos.mpr h
      intro hcon
      have : (F.histMonthly item_id).length = 0 := by rw [hcon]; rfl
      rw [PurchasePlanForecaster.histMonthly, List.length_map,
        PurchasePlanForecaster.histTrailing, List.length_drop, hlen] at this
      omega
    have hmean : F.hist_mean_d item_id =
        max (F.histMeanM item_id / 30) (1/10) := by
      rw [PurchasePlanForecaster.hist_mean_d, if_neg h]
    have hmeanM : F.histMeanM item_id =
        ((F.histMonthly item_id).sum : ℚ) / (F.histMonthly item_id).length := by
      rw [PurchasePlanForecaster.histMeanM]
      exact if_neg hne
    refine ⟨?_, ?_, ?_⟩
    · show (F.hist_daily_stats item_id).1 = _
      rw [PurchasePlanForecaster.hist_daily_stats]
      show F.hist_mean_d item_id = _
      rw [hmean, hmeanM, hmono h]
    · intro h2
      show (F.hist_daily_stats item_id).2 = _
      rw [PurchasePlanForecaster.hist_daily_stats]
      show F.hist_std_d item_id = _
      rw [PurchasePlanForecaster.hist_std_d, if_neg h,
        PurchasePlanForecaster.histStdM, if_pos (by exact h2 :
          1 < (F.histMonthly item_id).length),
        PurchasePlanForecaster.histVarM, if_pos (by exact h2 :
          1 < (F.histMonthly item_id).length),
        hmean, hmeanM, hmono h]
    · intro h2
      have h2m : (F.histMonthly item_id).length < 2 := h2
      show (F.hist_daily_stats item_id).2 = _
      rw [PurchasePlanForecaster.hist_daily_stats]
      show F.hist_std_d item_id = _
      rw [PurchasePlanForecaster.hist_std_d, if_neg h,
        PurchasePlanForecaster.histStdM,
        if_neg (by omega : ¬ 1 < (F.histMonthly item_id).length),
        hmean, hmeanM, hmono h]

/-- Witness for `c5_hist_stats_formula`: the default pair for an item with
no history, and the computed daily mean 10 for the worked example item. -/
theorem c5_hist_stats_witness :
    skuForecaster.hist_daily_stats "NOPE" = (1, 0.3) ∧
    (skuForecaster.hist_daily_stats "SKU1").1 = 10 := by
  constructor
  · exact (c5_hist_stats_formula skuForecaster "NOPE").1 (by decide)
  · have h := ((c5_hist_stats_formula skuForecaster "SKU1").2 (by decide)).1
    rw [h]
    show max (((skuForecaster.histMonthly "SKU1").sum : ℚ) /
      ((skuForecaster.histMonthly "SKU1").length : ℚ) / 30) (1/10) = 10
    rw [show skuForecaster.histMonthly "SKU1" =
      [370, 230, 305, 295, 305, 295, 300, 300, 300, 300, 300, 300] from by decide]
    norm_num

/-- Claim C2: on the worked example (12 months of history with mean 300 and
sample std-dev 30, lead time 15, review period 30, service level 0.95, MOQ
50, multiple 25, cover cap 2 months, zero stock, no forecasts) the daily
stats are (10, 1), the horizon is 45 days, the order-up-to level
S = 10*45 + 1.645*sqrt(45) lies strictly between 461 and 462, and the first
emitted row orders 475 units. -/
theorem c2_example_scenario :
    skuForecaster.hist_daily_stats "SKU1" = (10, 1) ∧
    horizon_days skuParams 30 = 45 ∧
    461 < order_up_to 10 1 (zOfService (95/100)) 45 ∧
    order_up_to 10 1 (zOfService (95/100)) 45 < 462 ∧
    ((skuForecaster.generate_purchase_plan 12 6 (95/100) 30 true).head?.map
      (fun r => r.optimized_order_qty)) = some 475 := by
  have hmon : skuForecaster.histMonthly "SKU1" =
      [370, 230, 305, 295, 305, 295, 300, 300, 300, 300, 300, 300] := by decide
  have hrows : skuForecaster.histRows "SKU1" ≠ [] := by decide
  have hmeanM : skuForecaster.histMeanM "SKU1" = 300 := by
    simp only [PurchasePlanForecaster.histMeanM, hmon]
    rw [if_neg (by simp :
      ¬([370, 230, 305, 295, 305, 295, 300, 300, 300, 300, 300, 300] : List ℤ) = [])]
    norm_num
  have hmean : skuForecaster.hist_mean_d "SKU1" = 10 := by
    rw [PurchasePlanForecaster.hist_mean_d, if_neg hrows, hmeanM]
    norm_num
  have hvar : skuForecaster.histVarM "SKU1" = 900 := by
    simp only [PurchasePlanForecaster.histVarM, hmon, hmeanM]
    norm_num
  have hstdM : skuForecaster.histStdM "SKU1" = 30 := by
    rw [PurchasePlanForecaster.histStdM,
      if_pos (by rw [hmon]; norm_num : 1 < (skuForecaster.histMonthly "SKU1").length),
      hvar, show (((900 : ℚ) : ℝ)) = 30 ^ 2 by norm_num]
    exact Real.sqrt_sq (by norm_num)
  have hstd : skuForecaster.hist_std_d "SKU1" = 1 := by
    rw [PurchasePlanForecaster.hist_std_d, if_neg hrows, hstdM, hmean,
      show ((10 : ℚ) : ℝ) = 10 by norm_num,
      show (30 : ℝ) / 30 = 1 by norm_num,
      show (0.05 : ℝ) * 10 = 1/2 by norm_num]
    exact max_eq_left (by norm_num)
  have hz : zOfService (95/100) = 1645/1000 := by norm_num [zOfService]
  have hsqrt_lo : (6.708 : ℝ) < Real.sqrt 45 := by
    rw [show (6.708 : ℝ) = Real.sqrt (6.708 ^ 2) from (Real.sqrt_sq (by norm_num)).symm]
    exact Real.sqrt_lt_sqrt (by norm_num) (by norm_num)
  have hsqrt_hi : Real.sqrt 45 < 6.709 := by
    rw [show (6.709 : ℝ) = Real.sqrt (6.709 ^ 2) from (Real.sqrt_sq (by norm_num)).symm]
    exact Real.sqrt_lt_sqrt (by norm_num) (by norm_num)
  have hS_lo : (461 : ℝ) < order_up_to 10 1 (zOfService (95/100)) 45 := by
    rw [hz]
    unfold order_up_to
    push_cast
    nlinarith [hsqrt_lo, hsqrt_hi]
  have hS_hi : order_up_to 10 1 (zOfService (95/100)) 45 < 462 := by
    rw [hz]
    unfold order_up_to
    push_cast
    nlinarith [hsqrt_lo, hsqrt_hi]
  have hraw : raw_order 10 1 (zOfService (95/100)) 45 0 = 462 := by
    unfold raw_order
    rw [show ((0 : ℤ) : ℝ) = 0 by norm_num, sub_zero,
      show ⌈order_up_to 10 1 (zOfService (95/100)) 45⌉ = 462 from by
        rw [Int.ceil_eq_iff]
        constructor
        · push_cast
          linarith [hS_lo]
        · push_cast
          linarith [hS_hi]]
    decide
  have hhor : horizon_days skuParams 30 = 45 := by decide
  have hme : skuForecaster.monthly_expected "SKU1" 10 12 = 300 := by
    rw [PurchasePlanForecaster.monthly_expected,
      show skuForecaster.month_fcst "SKU1" 10 12 = 300 from by
        rw [PurchasePlanForecaster.month_fcst,
          show skuForecaster.pick_monthly_forecast "SKU1" 12 = none from by decide]
        norm_num]
    rw [show (10 : ℚ) * 20 = 200 by norm_num]
    exact max_eq_left (by norm_num)
  have hcap : cap_by_cover_and_shelf 462 skuParams 300 = 462 := by
    rw [cap_by_cover_and_shelf]
    norm_num [skuParams, num_or_none, List.max?]
  have hround : round_to_moq_multiple 462 50 25 = 475 := by decide
  have hav : skuForecaster.available_stock true "SKU1" = 0 := by decide
  refine ⟨?_, hhor, hS_lo, hS_hi, ?_⟩
  · rw [PurchasePlanForecaster.hist_daily_stats, hmean, hstd]
  · have hhead : (skuForecaster.generate_purchase_plan 12 6 (95/100) 30 true).head? =
        some (skuForecaster.month_row "SKU1" skuParams
          (skuForecaster.hist_mean_d "SKU1") (skuForecaster.hist_std_d "SKU1")
          (zOfService (95/100)) 30 (skuForecaster.available_stock true "SKU1")
          (skuForecaster.available_stock true "SKU1") (12 + 0)) := by
      rw [show skuForecaster.generate_purchase_plan 12 6 (95/100) 30 true =
          skuForecaster.item_plan "SKU1" skuParams (zOfService (95/100)) 30 true 12 6
          from by
        simp [PurchasePlanForecaster.generate_purchase_plan, skuForecaster]]
      rw [PurchasePlanForecaster.item_plan_eq, show (6 : ℕ) = 5 + 1 from rfl,
        PurchasePlanForecaster.plan_months_succ]
      rfl
    rw [hhead, Option.map_some']
    rw [PurchasePlanForecaster.month_row_optimized, hmean, hstd, hav, hhor,
      show (12 + 0 : ℕ) = 12 from rfl, hraw, hme, hcap]
    refine congrArg some ?_
    show round_to_moq_multiple 462 50 25 = 475
    exact hround

/-- Witness for `c8_service_level_monotone` at service levels 0.90 and 0.99
with mean 1, std-dev 1, horizon 45 and zero available stock. -/
theorem c8_service_level_monotone_witness :
    ((90/100 : ℚ) = 90/100 ∨ (90/100 : ℚ) = 95/100 ∨ (90/100 : ℚ) = 98/100 ∨
      (90/100 : ℚ) = 99/100) ∧
    ((99/100 : ℚ) = 90/100 ∨ (99/100 : ℚ) = 95/100 ∨ (99/100 : ℚ) = 98/100 ∨
      (99/100 : ℚ) = 99/100) ∧
    (90/100 : ℚ) ≤ 99/100 ∧ (0 : ℝ) ≤ 1 ∧
    (order_up_to 1 1 (zOfService (90/100)) 45 ≤
      order_up_to 1 1 (zOfService (99/100)) 45 ∧
     raw_order 1 1 (zOfService (90/100)) 45 0 ≤
      raw_order 1 1 (zOfService (99/100)) 45 0) :=
  ⟨Or.inl rfl, Or.inr (Or.inr (Or.inr rfl)), by norm_num, by norm_num,
    c8_service_level_monotone (90/100) (99/100) (Or.inl rfl)
      (Or.inr (Or.inr (Or.inr rfl))) (by norm_num) 1 1 (by norm_num) 45 0⟩

end PurchasePlanner
